/-
Verification of the EveryPaste clipboard-history core against its
natural-language specification.

The Rust sources under src-tauri/src are shallowly embedded:
  * clipboard/models.rs   : ContentType, ClipboardItem, generate_preview
  * storage/database.rs   : the SQLite-backed history store (rows modelled as a
    list of ClipboardItem together with the AUTOINCREMENT counter)
  * clipboard/monitor.rs  : the polling monitor tick and the format-probe chain
    (native reads are parameters of a ClipboardEnv record)
  * config/settings.rs    : StorageLimit
  * commands/handlers.rs and lib.rs : the storage-related command flows

Machine strings are modelled as lists of characters, byte payloads as lists of
naturals, timestamps as integers (RFC3339 strings of the same format compare
chronologically), and SQLite row ids as integers.
-/
import Mathlib

namespace EveryPaste

/-- A byte payload. -/
abbrev Bytes := List Nat

/-- The blake3 256-bit digest used by monitor.rs (compute_hash).  The digest is
modelled as an injective function of the payload: the spec assumes collision
resistance, and every claim below depends only on which bytes are hashed and on
equality or inequality of digests, never on the digest representation. -/
def compute_hash (data : Bytes) : Bytes := data

/-- clipboard/models.rs ContentType. -/
inductive ContentType
  | Text
  | RichText
  | Image
deriving DecidableEq, Repr

/-- ContentType::as_str. -/
def ContentType.as_str : ContentType → String
  | .Text => "text"
  | .RichText => "rich_text"
  | .Image => "image"

/-- ContentType::from_str. -/
def ContentType.from_str (s : String) : Option ContentType :=
  if s = "text" then some .Text
  else if s = "rich_text" then some .RichText
  else if s = "image" then some .Image
  else none

/-- Rust str::trim on a character list. -/
def trim (s : List Char) : List Char :=
  ((s.dropWhile Char.isWhitespace).reverse.dropWhile Char.isWhitespace).reverse

/-- ClipboardItem::generate_preview (models.rs): trim, then keep the text when
it has at most max_len characters, otherwise take the first max_len characters
and append "...". -/
def generate_preview (text : List Char) (max_len : Nat) : List Char :=
  let t := trim text
  if t.length ≤ max_len then t
  else t.take max_len ++ ['.', '.', '.']

/-- clipboard/models.rs ClipboardItem (one row of clipboard_history). -/
structure ClipboardItem where
  id : Int
  content_type : ContentType
  plain_text : Option (List Char)
  rich_text : Option (List Char)
  image_path : Option (List Char)
  image_thumbnail : Option (List Char)
  preview : List Char
  hash : Bytes
  created_at : Int
  is_pinned : Bool
deriving DecidableEq, Repr

/-- ClipboardItem::new_text.  Utc::now() is passed in as the explicit
parameter now. -/
def ClipboardItem.new_text (id : Int) (text : List Char) (hash : Bytes)
    (now : Int) : ClipboardItem :=
  { id := id
    content_type := .Text
    plain_text := some text
    rich_text := none
    image_path := none
    image_thumbnail := none
    preview := generate_preview text 100
    hash := hash
    created_at := now
    is_pinned := false }

/-- ClipboardItem::new_rich_text, with Utc::now() passed in as now. -/
def ClipboardItem.new_rich_text (id : Int) (plain html : List Char)
    (hash : Bytes) (now : Int) : ClipboardItem :=
  { id := id
    content_type := .RichText
    plain_text := some plain
    rich_text := some html
    image_path := none
    image_thumbnail := none
    preview := generate_preview plain 100
    hash := hash
    created_at := now
    is_pinned := false }

/-- ClipboardItem::new_image, with Utc::now() passed in as now. -/
def ClipboardItem.new_image (id : Int) (image_path : List Char)
    (thumbnail : Option (List Char)) (hash : Bytes) (now : Int) :
    ClipboardItem :=
  { id := id
    content_type := .Image
    plain_text := none
    rich_text := none
    image_path := some image_path
    image_thumbnail := thumbnail
    preview := "[Image]".toList
    hash := hash
    created_at := now
    is_pinned := false }

/-! ### The history store (storage/database.rs)

The clipboard_history table is modelled as a list of rows plus the next
AUTOINCREMENT rowid (SQLite AUTOINCREMENT never reuses an id).  Operations are
modelled on an initialized connection; the NotInitialized branch of the with_db
macro is represented in the error type but not exercised by the claims, which
all premise an initialized store. -/

/-- storage/database.rs DatabaseError (the rusqlite error case carries the
SQLite message). -/
inductive DatabaseError
  | NotInitialized
  | Sqlite (msg : String)
  | Io (msg : String)
deriving DecidableEq, Repr

/-- The clipboard_history table state. -/
structure DbState where
  rows : List ClipboardItem
  next_id : Int
deriving DecidableEq, Repr

/-- insert_clipboard_item: the statement is INSERT OR REPLACE with hash UNIQUE,
so a row whose hash conflicts with the new row is deleted and the new row is
inserted with a fresh AUTOINCREMENT id; last_insert_rowid is returned.  (The
id column is not in the column list of the INSERT, so the replacement row never
keeps the old id.) -/
def insert_clipboard_item (item : ClipboardItem) (st : DbState) :
    Int × DbState :=
  let kept := st.rows.filter (fun r => decide (r.hash ≠ item.hash))
  let new_row := { item with id := st.next_id }
  (st.next_id, ⟨new_row :: kept, st.next_id + 1⟩)

/-- Pinned flag as the integer SQLite compares (is_pinned column). -/
def pin_val (x : ClipboardItem) : Int := if x.is_pinned then 1 else 0

/-- ORDER BY is_pinned DESC, created_at DESC, read as "a may come no later
than b". -/
def sql_le (a b : ClipboardItem) : Prop :=
  pin_val b < pin_val a ∨ (pin_val a = pin_val b ∧ b.created_at ≤ a.created_at)

instance sql_le_decidable : DecidableRel sql_le := fun _ _ =>
  inferInstanceAs (Decidable (_ ∨ _))

instance : IsTotal ClipboardItem sql_le :=
  ⟨by intro a b; unfold sql_le; omega⟩

instance : IsTrans ClipboardItem sql_le :=
  ⟨by intro a b c h1 h2; unfold sql_le at *; omega⟩

/-- ORDER BY created_at DESC, read as "a may come no later than b". -/
def created_desc (a b : ClipboardItem) : Prop := b.created_at ≤ a.created_at

instance created_desc_decidable : DecidableRel created_desc := fun _ _ =>
  inferInstanceAs (Decidable (_ ≤ _))

instance : IsTotal ClipboardItem created_desc :=
  ⟨by intro a b; unfold created_desc; omega⟩

instance : IsTrans ClipboardItem created_desc :=
  ⟨by intro a b c h1 h2; unfold created_desc at *; omega⟩

/-- get_all_items: SELECT ... ORDER BY is_pinned DESC, created_at DESC, with
LIMIT n only when the argument is Some n with n > 0. -/
def get_all_items (limit : Option Int) (st : DbState) : List ClipboardItem :=
  let sorted := st.rows.insertionSort sql_le
  match limit with
  | some n => if 0 < n then sorted.take n.toNat else sorted
  | none => sorted

/-- get_item_by_id. -/
def get_item_by_id (id : Int) (st : DbState) : Option ClipboardItem :=
  st.rows.find? (fun r => decide (r.id = id))

/-- delete_item: DELETE WHERE id = ?, returning whether a row was removed. -/
def delete_item (id : Int) (st : DbState) : Bool × DbState :=
  let remaining := st.rows.filter (fun r => decide (r.id ≠ id))
  (decide (remaining.length < st.rows.length), ⟨remaining, st.next_id⟩)

/-- clear_all_items: DELETE FROM clipboard_history. -/
def clear_all_items (st : DbState) : DbState := ⟨[], st.next_id⟩

/-- hash_exists: SELECT 1 ... WHERE hash = ? LIMIT 1. -/
def hash_exists (hash : Bytes) (st : DbState) : Bool :=
  st.rows.any (fun r => decide (r.hash = hash))

/-- get_item_count. -/
def get_item_count (st : DbState) : Int := st.rows.length

/-- SQLite rule for a compound SELECT (such as one built with UNION ALL): an
ORDER BY attached to the compound applies to the whole compound and each of
its terms must match one of the result column names (integer indices are the
other legal form; the statement below uses none).  A term naming a column that
is not in the result set makes sqlite3_prepare fail. -/
def compound_orderby_ok (result_columns orderby_terms : List String) : Bool :=
  orderby_terms.all (fun t => result_columns.contains t)

/-- Result columns of the subquery inside cleanup_old_items, transcribed from
the SQL text: both arms of the UNION ALL select only id. -/
def eviction_subquery_result_columns : List String := ["id"]

/-- ORDER BY terms attached to that compound subquery, transcribed from the
SQL text: ORDER BY created_at DESC. -/
def eviction_subquery_orderby_terms : List String := ["created_at"]

/-- The message SQLite produces when a compound-select ORDER BY term does not
name a result column. -/
def orderby_mismatch_msg : String :=
  "1st ORDER BY term does not match any column in the result set"

/-- The retain set the DELETE statement of cleanup_old_items names: ids of all
pinned rows, plus ids of the first max_count unpinned rows by created_at
descending. -/
def eviction_retain_ids (max_count : Int) (rows : List ClipboardItem) :
    List Int :=
  (rows.filter (fun r => r.is_pinned)).map (fun r => r.id) ++
    (((rows.filter (fun r => !r.is_pinned)).insertionSort
        created_desc).take max_count.toNat).map (fun r => r.id)

/-- cleanup_old_items: returns Ok 0 without touching the database when
max_count <= 0; otherwise executes the DELETE whose subquery is the compound
select transcribed above.  SQLite rejects that statement at prepare because
its ORDER BY term created_at is not a result column of the compound, so the
branch that would delete rows is unreachable for this statement; it is kept as
the meaning the statement names (retain set as above, delete the rest). -/
def cleanup_old_items (max_count : Int) (st : DbState) :
    Except DatabaseError (Int × DbState) :=
  if max_count ≤ 0 then .ok (0, st)
  else if compound_orderby_ok eviction_subquery_result_columns
      eviction_subquery_orderby_terms then
    let retain := eviction_retain_ids max_count st.rows
    let remaining := st.rows.filter (fun r => retain.contains r.id)
    .ok ((st.rows.length - remaining.length : Int), ⟨remaining, st.next_id⟩)
  else .error (.Sqlite orderby_mismatch_msg)

/-- SQLite LIKE is case-insensitive on ASCII letters. -/
def ascii_lower (c : Char) : Char :=
  if 'A' ≤ c ∧ c ≤ 'Z' then Char.ofNat (c.toNat + 32) else c

/-- column LIKE %query% : case-insensitive substring containment. -/
def like_contains (text query : List Char) : Bool :=
  decide ((query.map ascii_lower) <:+: (text.map ascii_lower))

/-- search_items: WHERE plain_text LIKE %q% OR preview LIKE %q% (a NULL
plain_text fails the LIKE), same ORDER BY as get_all_items, LIMIT only for a
positive limit argument. -/
def search_items (query : List Char) (limit : Option Int) (st : DbState) :
    List ClipboardItem :=
  let matched := st.rows.filter (fun r =>
    (match r.plain_text with
     | some t => like_contains t query
     | none => false) || like_contains r.preview query)
  let sorted := matched.insertionSort sql_le
  match limit with
  | some n => if 0 < n then sorted.take n.toNat else sorted
  | none => sorted

/-! ### Settings (config/settings.rs) -/

/-- StorageLimit. -/
inductive StorageLimit
  | Limit100
  | Limit200
  | Limit500
  | Unlimited
deriving DecidableEq, Repr

/-- StorageLimit::as_i32. -/
def StorageLimit.as_i32 : StorageLimit → Int
  | .Limit100 => 100
  | .Limit200 => 200
  | .Limit500 => 500
  | .Unlimited => -1

/-- StorageLimit::from_i32. -/
def StorageLimit.from_i32 (value : Int) : StorageLimit :=
  if value = 100 then .Limit100
  else if value = 200 then .Limit200
  else if value = 500 then .Limit500
  else .Unlimited

/-- The post-insert eviction step of handle_new_clipboard_content (lib.rs):
after a successful insert the settings are re-read, and when the configured
limit is positive cleanup_old_items is invoked with it; a cleanup error is
logged and leaves the store as it was. -/
def post_insert_cleanup (storage_limit : StorageLimit) (st : DbState) :
    DbState :=
  let limit := storage_limit.as_i32
  if 0 < limit then
    match cleanup_old_items limit st with
    | .ok (_, st2) => st2
    | .error _ => st
  else st

/-- The storage_limit branch of the update_settings command (handlers.rs):
the new setting is from_i32 of the requested value, and when the raw requested
value is positive cleanup_old_items is invoked with that raw value; a cleanup
error is logged and leaves the store as it was. -/
def update_settings_storage_limit (limit : Int) (st : DbState) :
    StorageLimit × DbState :=
  let new_setting := StorageLimit.from_i32 limit
  if 0 < limit then
    match cleanup_old_items limit st with
    | .ok (_, st2) => (new_setting, st2)
    | .error _ => (new_setting, st)
  else (new_setting, st)

/-! ### The clipboard monitor (clipboard/monitor.rs) -/

/-- clipboard/monitor.rs ClipboardSnapshot. -/
structure ClipboardSnapshot where
  content_type : ContentType
  plain_text : Option (List Char)
  rich_text : Option (List Char)
  image_data : Option Bytes
  hash : Bytes
deriving DecidableEq, Repr

/-- One evaluation of the dedup section of the worker loop body (monitor.rs
start, the block guarded by read_clipboard): given the remembered last_hash
and the snapshot the probe yielded this tick, returns the new remembered hash
and whether the callback was invoked. -/
def monitor_tick (last_hash : Bytes) (snapshot : Option ClipboardSnapshot) :
    Bytes × Bool :=
  match snapshot with
  | none => (last_hash, false)
  | some s => if s.hash ≠ last_hash then (s.hash, true) else (last_hash, false)

/-- Events of one tick of the worker loop, in program order. -/
inductive TickEvent
  | lock_acquire
  | hash_update
  | lock_release
  | callback_invoke
deriving DecidableEq, Repr

/-- The event trace of the dedup section, mirroring the statement order of the
source: last_hash.lock(); if the hash differs, the remembered hash is written,
drop(last) releases the lock, and only then the callback runs; if it is equal
the guard is dropped at end of scope with no callback. -/
def monitor_tick_events (last_hash : Bytes)
    (snapshot : Option ClipboardSnapshot) : List TickEvent :=
  match snapshot with
  | none => []
  | some s =>
    if s.hash ≠ last_hash then
      [.lock_acquire, .hash_update, .lock_release, .callback_invoke]
    else
      [.lock_acquire, .lock_release]

/-! ### The format probe (read_clipboard and helpers)

The native reads the probe performs are parameters gathered in a ClipboardEnv
record: each field is the outcome of the corresponding native call on this
tick.  The probe logic itself is translated from the source. -/

/-- arboard::ImageData: width, height and the raw decoded RGBA bytes. -/
structure ArboardImage where
  width : Nat
  height : Nat
  bytes : Bytes
deriving DecidableEq, Repr

/-- One entry of the clipboard file list, with the outcomes of the filesystem
and image-crate calls the probe makes on it. -/
structure FileEntry where
  path_exists : Bool
  is_regular_file : Bool
  extension : List Char
  decoded_png : Option Bytes
deriving DecidableEq, Repr

/-- Outcomes of the native calls available to one probe invocation.  A none in
image_read / dib_read / file_list / text_read is the Err branch of the
corresponding call (the code treats every error alike and only logs the
message).  png_encode is the result of rgba_to_png, which returns an empty
vector when encoding fails; dib_decoded_png is the combined outcome of
image::load_from_memory and the PNG re-encode. -/
structure ClipboardEnv where
  image_read : Option ArboardImage
  png_encode : ArboardImage → Bytes
  dib_read : Option Bytes
  dib_decoded_png : Bytes → Option Bytes
  file_list : Option (List FileEntry)
  text_read : Option (List Char)

/-- rgba_to_png (monitor.rs): the PNG encoding of the raw RGBA image; an empty
byte vector signals failure, exactly the condition read_clipboard tests. -/
def rgba_to_png (env : ClipboardEnv) (image : ArboardImage) : Bytes :=
  env.png_encode image

/-- The known-image extension set of read_image_files. -/
def image_extensions : List (List Char) :=
  ["png".toList, "jpg".toList, "jpeg".toList, "bmp".toList,
   "webp".toList, "ico".toList, "gif".toList]

/-- Rust str::to_lowercase restricted to the ASCII letters appearing in
extensions. -/
def to_lowercase (s : List Char) : List Char := s.map ascii_lower

/-- The iteration of read_image_files over the file list: skip entries that do
not exist, are not regular files, or have an extension outside the known-image
set; on a decode or re-encode failure the loop continues with the next entry;
the first successfully decoded entry wins. -/
def first_image_file : List FileEntry → Option Bytes
  | [] => none
  | f :: rest =>
    if !f.path_exists then first_image_file rest
    else if !f.is_regular_file then first_image_file rest
    else if image_extensions.contains (to_lowercase f.extension) then
      match f.decoded_png with
      | some png_data => some png_data
      | none => first_image_file rest
    else first_image_file rest

/-- read_image_files (monitor.rs): none when the FileList read fails or the
list is empty, otherwise the first valid image file re-encoded to PNG. -/
def read_image_files (env : ClipboardEnv) : Option Bytes :=
  match env.file_list with
  | none => none
  | some files =>
    if files.isEmpty then none
    else first_image_file files

/-- read_dib_image (monitor.rs): read the legacy bitmap clipboard format; on
bytes, the hash is computed over the still-encoded bitmap bytes, then the data
is decoded and re-encoded to PNG; any failure yields none. -/
def read_dib_image (env : ClipboardEnv) : Option (Bytes × Bytes) :=
  match env.dib_read with
  | none => none
  | some bitmap_data =>
    if bitmap_data.isEmpty then none
    else
      let hash := compute_hash bitmap_data
      match env.dib_decoded_png bitmap_data with
      | some png_data => some (png_data, hash)
      | none => none

/-- Steps 2 and 3 of read_clipboard, the code after the image match: the file
list, then plain text (an empty string is no content).  The text hash is over
the text bytes. -/
def read_clipboard_rest (env : ClipboardEnv) : Option ClipboardSnapshot :=
  match read_image_files env with
  | some image_data =>
    some ⟨.Image, none, none, some image_data, compute_hash image_data⟩
  | none =>
    match env.text_read with
    | some text =>
      if !text.isEmpty then
        some ⟨.Text, some text, none, none,
          compute_hash (text.map Char.toNat)⟩
      else none
    | none => none

/-- read_clipboard (monitor.rs).  On a successful native image read the hash
is computed over the raw RGBA bytes before encoding; if the PNG encode comes
back empty the code only logs and control falls past the match to the file
list check.  On a failed native image read the DIB fallback is tried; if it
also fails, control likewise falls to the file list check. -/
def read_clipboard (env : ClipboardEnv) : Option ClipboardSnapshot :=
  match env.image_read with
  | some image =>
    let hash := compute_hash image.bytes
    let image_data := rgba_to_png env image
    if image_data.isEmpty then
      read_clipboard_rest env
    else
      some ⟨.Image, none, none, some image_data, hash⟩
  | none =>
    match read_dib_image env with
    | some (image_data, hash) =>
      some ⟨.Image, none, none, some image_data, hash⟩
    | none => read_clipboard_rest env

/-- The capture strategies of the probe chain. -/
inductive Strategy
  | direct_image
  | dib_image
  | file_list_probe
  | plain_text_probe
deriving DecidableEq, Repr

/-- Strategies attempted by the code after the image match, mirroring
read_clipboard_rest. -/
def rest_attempts (env : ClipboardEnv) : List Strategy :=
  match read_image_files env with
  | some _ => [.file_list_probe]
  | none => [.file_list_probe, .plain_text_probe]

/-- Which strategies one probe invocation attempts, in order, mirroring the
control flow of read_clipboard. -/
def read_clipboard_attempts (env : ClipboardEnv) : List Strategy :=
  match env.image_read with
  | some image =>
    if (rgba_to_png env image).isEmpty then
      .direct_image :: rest_attempts env
    else [.direct_image]
  | none =>
    match read_dib_image env with
    | some _ => [.direct_image, .dib_image]
    | none => .direct_image :: .dib_image :: rest_attempts env

/-! ### Command layer (commands/handlers.rs) -/

/-- search_clipboard (handlers.rs): an empty query short-circuits to the full
history listing; otherwise search_items runs.  Stated on the stored records;
the handler only maps each record to its view, preserving order and count. -/
def search_clipboard (query : List Char) (limit : Option Int) (st : DbState) :
    List ClipboardItem :=
  if query.isEmpty then get_all_items limit st
  else search_items query limit st

/-! ### Spec-side eviction (for comparison with cleanup_old_items) -/

/-- Spec-side definition, following the words of the specification for
enforceLimit: if max <= 0 do nothing, otherwise compute the retain set as all
pinned records together with the max most-recent unpinned records by
created_at descending, and delete every record whose id is not in the retain
set.  Used only to exhibit how far cleanup_old_items diverges from the
specified eviction. -/
def enforce_limit_spec (max : Int) (rows : List ClipboardItem) :
    List ClipboardItem :=
  if max ≤ 0 then rows
  else
    let retain := eviction_retain_ids max rows
    rows.filter (fun r => retain.contains r.id)

/-! ### Sample data used by witnesses and counterexamples -/

/-- A sample text row. -/
def sample_item (id created : Int) (pinned : Bool) (h : Bytes) :
    ClipboardItem :=
  { id := id
    content_type := .Text
    plain_text := some ['x']
    rich_text := none
    image_path := none
    image_thumbnail := none
    preview := ['x']
    hash := h
    created_at := created
    is_pinned := pinned }

/-- A sample store: two pinned rows (ids 1, 5) and three unpinned rows
(ids 2, 3, 4) with increasing timestamps. -/
def sample_db : DbState :=
  ⟨[sample_item 1 10 true [1], sample_item 2 20 false [2],
    sample_item 3 30 false [3], sample_item 4 40 false [4],
    sample_item 5 50 true [5]], 6⟩

/-- A sample store of two unpinned rows. -/
def two_row_db : DbState :=
  ⟨[sample_item 1 10 false [1], sample_item 2 20 false [2]], 3⟩

/-! ### Claims -/

/-- C9: for every store state, enforceLimit with max <= 0 (e.g. 0 or -1) is a
no-op: cleanup_old_items deletes nothing and reports zero deletions,
regardless of the current record count. -/
theorem cleanup_nonpositive_noop (st : DbState) (max_count : Int)
    (h : max_count ≤ 0) :
    cleanup_old_items max_count st = .ok (0, st) := by
  simp [cleanup_old_items, h]

theorem cleanup_nonpositive_noop_witness :
    cleanup_old_items 0 sample_db = .ok (0, sample_db) ∧
    cleanup_old_items (-1) sample_db = .ok (0, sample_db) :=
  ⟨cleanup_nonpositive_noop sample_db 0 (by decide),
   cleanup_nonpositive_noop sample_db (-1) (by decide)⟩

/-- C2: for every store state and positive max, cleanup_old_items never
deletes anything: SQLite rejects the eviction statement at prepare, because
the ORDER BY term created_at of the compound subquery is not one of its
result columns, so the call always returns the Sqlite error and the store is
left unchanged.  (The specified eviction would have deleted the unpinned rows
beyond the max most recent ones.) -/
theorem cleanup_positive_always_errors (st : DbState) (max_count : Int)
    (h : 0 < max_count) :
    cleanup_old_items max_count st =
      .error (.Sqlite orderby_mismatch_msg) := by
  rw [cleanup_old_items, if_neg (by omega), if_neg (by decide)]

theorem cleanup_positive_always_errors_witness :
    cleanup_old_items 1 sample_db = .error (.Sqlite orderby_mismatch_msg) ∧
    enforce_limit_spec 1 sample_db.rows ≠ sample_db.rows :=
  ⟨cleanup_positive_always_errors sample_db 1 (by decide), by decide⟩

/-- C10: invoking the search command with the empty query returns exactly the
full history listing (same records, same order, same limit handling), for
every limit argument and store state. -/
theorem search_empty_query_is_history (st : DbState) (limit : Option Int) :
    search_clipboard [] limit st = get_all_items limit st := by
  simp [search_clipboard]

/-- C3: on a tick where the probe yields a snapshot, the callback is invoked
iff the snapshot hash differs from the remembered hash; when it differs the
remembered hash is updated and the lock is released before the callback runs
(every trace containing the callback is acquire, update, release, callback in
that order); and the same snapshot on two consecutive ticks produces exactly
one callback invocation. -/
theorem monitor_dedup_consecutive (last : Bytes) (s : ClipboardSnapshot)
    (hnew : s.hash ≠ last) :
    monitor_tick last (some s) = (s.hash, true) ∧
    (monitor_tick (monitor_tick last (some s)).1 (some s)).2 = false ∧
    (∀ prev, (monitor_tick prev (some s)).2 = true ↔ s.hash ≠ prev) ∧
    (∀ prev, TickEvent.callback_invoke ∈ monitor_tick_events prev (some s) →
      monitor_tick_events prev (some s) =
        [.lock_acquire, .hash_update, .lock_release, .callback_invoke]) := by
  refine ⟨by simp [monitor_tick, hnew], ?_, ?_, ?_⟩
  · simp [monitor_tick, hnew]
  · intro prev
    by_cases h : s.hash = prev <;> simp [monitor_tick, h]
  · intro prev hcb
    by_cases h : s.hash = prev
    · simp [monitor_tick_events, h] at hcb
    · simp [monitor_tick_events, h]

/-- A sample text snapshot whose hash differs from the empty initial
remembered hash. -/
def sample_snapshot : ClipboardSnapshot :=
  ⟨.Text, some ['h'], none, none, [104]⟩

theorem monitor_dedup_consecutive_witness :
    monitor_tick [] (some sample_snapshot) = ([104], true) ∧
    (monitor_tick (monitor_tick [] (some sample_snapshot)).1
      (some sample_snapshot)).2 = false ∧
    (∀ prev, (monitor_tick prev (some sample_snapshot)).2 = true ↔
      sample_snapshot.hash ≠ prev) ∧
    (∀ prev, TickEvent.callback_invoke ∈
        monitor_tick_events prev (some sample_snapshot) →
      monitor_tick_events prev (some sample_snapshot) =
        [.lock_acquire, .hash_update, .lock_release, .callback_invoke]) :=
  monitor_dedup_consecutive [] sample_snapshot (by decide)

/-- A record with fingerprint [1, 2]. -/
def dup_item_a : ClipboardItem :=
  { id := 0
    content_type := .Text
    plain_text := some ['a']
    rich_text := none
    image_path := none
    image_thumbnail := none
    preview := ['a']
    hash := [1, 2]
    created_at := 10
    is_pinned := false }

/-- A different record carrying the same fingerprint [1, 2]. -/
def dup_item_b : ClipboardItem :=
  { dup_item_a with
      plain_text := some ['b']
      preview := ['b']
      created_at := 20 }

/-- C1 counterexample: inserting dup_item_a into an empty store and then
inserting dup_item_b with the same fingerprint does not fail with a Duplicate
condition and does not leave the store unchanged: the second insert succeeds
returning row id 2, the stored row now carries the second record's fields and
the new id, and the first row is gone (INSERT OR REPLACE silently overwrites;
only the count is preserved). -/
theorem insert_duplicate_counterexample :
    (insert_clipboard_item dup_item_a ⟨[], 1⟩).1 = 1 ∧
    ((insert_clipboard_item dup_item_b
        (insert_clipboard_item dup_item_a ⟨[], 1⟩).2).1 = 2 ∧
      (insert_clipboard_item dup_item_b
        (insert_clipboard_item dup_item_a ⟨[], 1⟩).2).2.rows ≠
        (insert_clipboard_item dup_item_a ⟨[], 1⟩).2.rows ∧
      (insert_clipboard_item dup_item_b
        (insert_clipboard_item dup_item_a ⟨[], 1⟩).2).2.rows.length =
        (insert_clipboard_item dup_item_a ⟨[], 1⟩).2.rows.length ∧
      (∀ r ∈ (insert_clipboard_item dup_item_b
          (insert_clipboard_item dup_item_a ⟨[], 1⟩).2).2.rows,
        r.id = 2 ∧ r.preview = ['b'] ∧ r.hash = [1, 2]) ∧
      (∀ r ∈ (insert_clipboard_item dup_item_a ⟨[], 1⟩).2.rows,
        r ∉ (insert_clipboard_item dup_item_b
          (insert_clipboard_item dup_item_a ⟨[], 1⟩).2).2.rows)) := by
  decide

/-- C1 amended: when the store holds exactly one record with the new record's
fingerprint, a second insert of that fingerprint succeeds and silently
replaces the existing row: it returns the next id, the count stays the same,
and every stored row with that fingerprint now carries the new record's
fields and the freshly assigned id (the previous row and its id are gone). -/
theorem insert_duplicate_replaces (st : DbState) (item : ClipboardItem)
    (hdup : (st.rows.filter
      (fun r => decide (r.hash = item.hash))).length = 1) :
    (insert_clipboard_item item st).1 = st.next_id ∧
    (insert_clipboard_item item st).2.rows.length = st.rows.length ∧
    (∀ q ∈ (insert_clipboard_item item st).2.rows, q.hash = item.hash →
      q.id = st.next_id ∧ q.preview = item.preview ∧
      q.plain_text = item.plain_text ∧ q.created_at = item.created_at) := by
  refine ⟨rfl, ?_, ?_⟩
  · have hpart := List.length_eq_length_filter_add
      (l := st.rows) (fun r => decide (r.hash = item.hash))
    have hneg : (st.rows.filter (fun r => decide (r.hash ≠ item.hash))) =
        (st.rows.filter (fun r => !(decide (r.hash = item.hash)))) := by
      simp only [decide_not]
    simp only [insert_clipboard_item, List.length_cons, hneg]
    omega
  · intro q hq hhash
    simp only [insert_clipboard_item, List.mem_cons] at hq
    rcases hq with rfl | hq
    · exact ⟨rfl, rfl, rfl, rfl⟩
    · exfalso
      have := List.of_mem_filter hq
      simp only [decide_eq_true_eq] at this
      exact this hhash

/-- A store holding exactly the first duplicate-fingerprint record. -/
def st_with_a : DbState := ⟨[{ dup_item_a with id := 1 }], 2⟩

theorem insert_duplicate_replaces_witness :
    (insert_clipboard_item dup_item_b st_with_a).1 = st_with_a.next_id ∧
    (insert_clipboard_item dup_item_b st_with_a).2.rows.length =
      st_with_a.rows.length ∧
    (∀ q ∈ (insert_clipboard_item dup_item_b st_with_a).2.rows,
      q.hash = dup_item_b.hash →
      q.id = st_with_a.next_id ∧ q.preview = dup_item_b.preview ∧
      q.plain_text = dup_item_b.plain_text ∧
      q.created_at = dup_item_b.created_at) :=
  insert_duplicate_replaces st_with_a dup_item_b (by decide)

/-- C4 counterexample: the positive configured value 1 does not act as a
record-count cap: StorageLimit::from_i32 coerces it to Unlimited (as_i32 -1),
so after an insert into a two-row store no eviction is invoked and both rows
survive a supposed cap of 1. -/
theorem storage_limit_positive_counterexample :
    StorageLimit.from_i32 1 = .Unlimited ∧
    (StorageLimit.from_i32 1).as_i32 = -1 ∧
    post_insert_cleanup (StorageLimit.from_i32 1) two_row_db = two_row_db ∧
    2 ≤ two_row_db.rows.length := by
  decide

/-- C4 amended: a non-positive configured value means unlimited, but a
positive value acts as a configured cap only when it is exactly 100, 200 or
500; every other value is coerced to Unlimited by from_i32 and disables the
post-insert eviction.  When the re-read limit is one of 100, 200, 500, the
post-insert step of handle_new_clipboard_content invokes cleanup_old_items
with that limit (handling its result as the code does).  On a limit change,
the update_settings handler stores from_i32 of the requested value and
invokes cleanup_old_items with the raw requested value whenever that raw
value is positive, leaving the store untouched otherwise. -/
theorem storage_limit_semantics (v : Int) (st : DbState) :
    (v ≤ 0 → StorageLimit.from_i32 v = .Unlimited) ∧
    (StorageLimit.from_i32 v = .Unlimited ↔
      ¬(v = 100 ∨ v = 200 ∨ v = 500)) ∧
    ((v = 100 ∨ v = 200 ∨ v = 500) →
      (StorageLimit.from_i32 v).as_i32 = v) ∧
    (¬(v = 100 ∨ v = 200 ∨ v = 500) →
      post_insert_cleanup (StorageLimit.from_i32 v) st = st) ∧
    ((v = 100 ∨ v = 200 ∨ v = 500) →
      post_insert_cleanup (StorageLimit.from_i32 v) st =
        match cleanup_old_items v st with
        | .ok (_, st2) => st2
        | .error _ => st) ∧
    ((update_settings_storage_limit v st).1 = StorageLimit.from_i32 v) ∧
    (0 < v → (update_settings_storage_limit v st).2 =
      match cleanup_old_items v st with
      | .ok (_, st2) => st2
      | .error _ => st) ∧
    (v ≤ 0 → (update_settings_storage_limit v st).2 = st) := by
  have hupd1 : (update_settings_storage_limit v st).1 =
      StorageLimit.from_i32 v := by
    unfold update_settings_storage_limit
    by_cases hv : 0 < v
    · simp only [if_pos hv]
      cases cleanup_old_items v st with
      | ok p => cases p; rfl
      | error e => rfl
    · simp [hv]
  have hupd2 : 0 < v → (update_settings_storage_limit v st).2 =
      match cleanup_old_items v st with
      | .ok (_, st2) => st2
      | .error _ => st := by
    intro hv
    unfold update_settings_storage_limit
    simp only [if_pos hv]
    cases cleanup_old_items v st with
    | ok p => cases p; rfl
    | error e => rfl
  have hupd3 : v ≤ 0 → (update_settings_storage_limit v st).2 = st := by
    intro hv
    unfold update_settings_storage_limit
    simp [show ¬0 < v by omega]
  refine ?_
  have hmain : (v ≤ 0 → StorageLimit.from_i32 v = .Unlimited) ∧
      (StorageLimit.from_i32 v = .Unlimited ↔
        ¬(v = 100 ∨ v = 200 ∨ v = 500)) ∧
      ((v = 100 ∨ v = 200 ∨ v = 500) →
        (StorageLimit.from_i32 v).as_i32 = v) ∧
      (¬(v = 100 ∨ v = 200 ∨ v = 500) →
        post_insert_cleanup (StorageLimit.from_i32 v) st = st) ∧
      ((v = 100 ∨ v = 200 ∨ v = 500) →
        post_insert_cleanup (StorageLimit.from_i32 v) st =
          match cleanup_old_items v st with
          | .ok (_, st2) => st2
          | .error _ => st) := by
    by_cases h100 : v = 100
    · subst h100
      refine ⟨by omega, by simp [StorageLimit.from_i32],
        fun _ => by decide, ?_, ?_⟩
      · intro h; exact absurd (Or.inl rfl) h
      · intro _
        simp [StorageLimit.from_i32, post_insert_cleanup,
          StorageLimit.as_i32]
    · by_cases h200 : v = 200
      · subst h200
        refine ⟨by omega, by simp [StorageLimit.from_i32],
          fun _ => by decide, ?_, ?_⟩
        · intro h; exact absurd (Or.inr (Or.inl rfl)) h
        · intro _
          simp [StorageLimit.from_i32, post_insert_cleanup,
            StorageLimit.as_i32]
      · by_cases h500 : v = 500
        · subst h500
          refine ⟨by omega, by simp [StorageLimit.from_i32],
            fun _ => by decide, ?_, ?_⟩
          · intro h; exact absurd (Or.inr (Or.inr rfl)) h
          · intro _
            simp [StorageLimit.from_i32, post_insert_cleanup,
              StorageLimit.as_i32]
        · have hform : StorageLimit.from_i32 v = .Unlimited := by
            simp [StorageLimit.from_i32, h100, h200, h500]
          refine ⟨fun _ => hform, ?_, ?_, ?_, ?_⟩
          · simp [hform, h100, h200, h500]
          · intro h; rcases h with h | h | h <;> simp_all
          · intro _
            simp [hform, post_insert_cleanup, StorageLimit.as_i32]
          · intro h; rcases h with h | h | h <;> simp_all
  exact ⟨hmain.1, hmain.2.1, hmain.2.2.1, hmain.2.2.2.1, hmain.2.2.2.2,
    hupd1, hupd2, hupd3⟩

theorem storage_limit_semantics_witness :
    (post_insert_cleanup (StorageLimit.from_i32 100) two_row_db =
      match cleanup_old_items 100 two_row_db with
      | .ok (_, st2) => st2
      | .error _ => two_row_db) ∧
    ((update_settings_storage_limit 50 two_row_db).2 =
      match cleanup_old_items 50 two_row_db with
      | .ok (_, st2) => st2
      | .error _ => two_row_db) :=
  ⟨(storage_limit_semantics 100 two_row_db).2.2.2.2.1 (Or.inl rfl),
   (storage_limit_semantics 50 two_row_db).2.2.2.2.2.2.1 (by decide)⟩

/-- C8 counterexample: a 101-character input yields a preview of 103
characters (100 kept characters plus the three-character ellipsis), so the
derived preview is not bounded by N = 100 characters. -/
theorem preview_length_counterexample :
    ¬((generate_preview (List.replicate 101 'a') 100).length ≤ 100) ∧
    (generate_preview (List.replicate 101 'a') 100).length = 103 := by
  decide

/-- C8 amended: the derived preview is at most 103 characters long: when the
trimmed input has at most 100 characters the preview is exactly the trimmed
input, and when it is longer the preview is its first 100 characters followed
by the three-character ellipsis, for a total of exactly 103; new_text derives
its preview exactly this way with N = 100. -/
theorem preview_bound (text : List Char) :
    (generate_preview text 100).length ≤ 103 ∧
    ((trim text).length ≤ 100 → generate_preview text 100 = trim text) ∧
    (100 < (trim text).length →
      generate_preview text 100 = (trim text).take 100 ++ ['.', '.', '.'] ∧
      (generate_preview text 100).length = 103) ∧
    (∀ id hash now, (ClipboardItem.new_text id text hash now).preview =
      generate_preview text 100) := by
  by_cases h : (trim text).length ≤ 100
  · refine ⟨?_, fun _ => ?_, fun hlong => absurd h (by omega), fun _ _ _ => rfl⟩
    · simp only [generate_preview, if_pos h]; omega
    · simp only [generate_preview, if_pos h]
  · refine ⟨?_, fun hshort => absurd hshort h, fun _ => ⟨?_, ?_⟩,
      fun _ _ _ => rfl⟩
    · simp only [generate_preview, if_neg h, List.length_append,
        List.length_take, List.length_cons, List.length_nil]
      omega
    · simp only [generate_preview, if_neg h]
    · simp only [generate_preview, if_neg h, List.length_append,
        List.length_take, List.length_cons, List.length_nil]
      omega

theorem preview_bound_witness :
    generate_preview (List.replicate 101 'a') 100 =
      (trim (List.replicate 101 'a')).take 100 ++ ['.', '.', '.'] :=
  ((preview_bound (List.replicate 101 'a')).2.2.1 (by decide)).1

/-- An environment where the native image query succeeds, the PNG encode
fails (rgba_to_png comes back empty), a legacy DIB bitmap is available and
would decode, the file-list read fails, and text is present. -/
def encode_fail_env : ClipboardEnv :=
  { image_read := some ⟨1, 1, [0, 0, 0, 255]⟩
    png_encode := fun _ => []
    dib_read := some [7, 7]
    dib_decoded_png := fun _ => some [9, 9]
    file_list := none
    text_read := some ['t'] }

/-- C5 counterexample: when the direct pixel-buffer strategy finds native
image data but the PNG encode fails, the next strategy attempted is the
dropped-file list, not the legacy bitmap format: in encode_fail_env the DIB
read would have succeeded, yet the probe never attempts it and ends up
returning the text snapshot. -/
theorem probe_encode_failure_counterexample :
    read_clipboard_attempts encode_fail_env =
      [.direct_image, .file_list_probe, .plain_text_probe] ∧
    Strategy.dib_image ∉ read_clipboard_attempts encode_fail_env ∧
    read_dib_image encode_fail_env = some ([9, 9], compute_hash [7, 7]) ∧
    read_clipboard encode_fail_env =
      some ⟨.Text, some ['t'], none, none, compute_hash [116]⟩ := by
  decide

/-- C5 amended: when the direct pixel-buffer strategy finds native image data
but encoding fails, the probe returns no snapshot from that strategy (never a
partially-built one) and falls through to the dropped-file-list strategy; the
legacy bitmap format is attempted only when the native image query itself
fails, never after an encode failure. -/
theorem probe_encode_failure_falls_to_files (env : ClipboardEnv)
    (image : ArboardImage) (himg : env.image_read = some image)
    (henc : (rgba_to_png env image).isEmpty = true) :
    read_clipboard env = read_clipboard_rest env ∧
    read_clipboard_attempts env = .direct_image :: rest_attempts env ∧
    Strategy.dib_image ∉ read_clipboard_attempts env := by
  refine ⟨?_, ?_, ?_⟩
  · rw [read_clipboard, himg]
    simp [henc]
  · rw [read_clipboard_attempts, himg]
    simp [henc]
  · rw [read_clipboard_attempts, himg]
    simp only [henc, if_pos]
    cases h : read_image_files env <;> simp [rest_attempts, h]

theorem probe_encode_failure_falls_witness :
    read_clipboard encode_fail_env = read_clipboard_rest encode_fail_env ∧
    read_clipboard_attempts encode_fail_env =
      .direct_image :: rest_attempts encode_fail_env ∧
    Strategy.dib_image ∉ read_clipboard_attempts encode_fail_env :=
  probe_encode_failure_falls_to_files encode_fail_env ⟨1, 1, [0, 0, 0, 255]⟩
    rfl rfl

/-- An environment where the direct pixel-buffer strategy succeeds: raw RGBA
bytes [1, 2, 3, 4], encoded PNG [5, 6]. -/
def direct_env : ClipboardEnv :=
  { image_read := some ⟨1, 1, [1, 2, 3, 4]⟩
    png_encode := fun _ => [5, 6]
    dib_read := none
    dib_decoded_png := fun _ => none
    file_list := none
    text_read := none }

/-- An environment where the native image query fails and the legacy bitmap
strategy succeeds, producing the same portable PNG bytes [5, 6] from encoded
bitmap bytes [5, 6]. -/
def dib_env : ClipboardEnv :=
  { image_read := none
    png_encode := fun _ => []
    dib_read := some [5, 6]
    dib_decoded_png := fun _ => some [5, 6]
    file_list := none
    text_read := none }

/-- C6: an image captured via the direct pixel-buffer strategy is
fingerprinted over the raw decoded pixel bytes, before and independently of
the PNG encoding; an image captured via the legacy bitmap strategy is
fingerprinted over the still-encoded bitmap bytes, before decoding.  The two
domains differ: two environments that yield the same portable image payload
produce different fingerprints across the two strategies. -/
theorem image_fingerprint_domains :
    (∀ (env : ClipboardEnv) (image : ArboardImage),
      env.image_read = some image →
      (rgba_to_png env image).isEmpty = false →
      read_clipboard env = some ⟨.Image, none, none,
        some (rgba_to_png env image), compute_hash image.bytes⟩) ∧
    (∀ (env : ClipboardEnv) (bitmap_data png_data : Bytes),
      env.dib_read = some bitmap_data →
      bitmap_data.isEmpty = false →
      env.dib_decoded_png bitmap_data = some png_data →
      read_dib_image env = some (png_data, compute_hash bitmap_data)) ∧
    ((read_clipboard direct_env).map (fun s => s.image_data) =
      (read_clipboard dib_env).map (fun s => s.image_data) ∧
     (read_clipboard direct_env).map (fun s => s.hash) ≠
      (read_clipboard dib_env).map (fun s => s.hash)) := by
  refine ⟨?_, ?_, by decide⟩
  · intro env image himg henc
    rw [read_clipboard, himg]
    simp [henc]
  · intro env bitmap_data png_data hdib hne hdec
    rw [read_dib_image, hdib]
    simp [hne, hdec]

theorem image_fingerprint_domains_witness :
    read_clipboard direct_env = some ⟨.Image, none, none, some [5, 6],
      compute_hash [1, 2, 3, 4]⟩ ∧
    read_dib_image dib_env = some ([5, 6], compute_hash [5, 6]) :=
  ⟨image_fingerprint_domains.1 direct_env ⟨1, 1, [1, 2, 3, 4]⟩ rfl rfl,
   image_fingerprint_domains.2.1 dib_env [5, 6] [5, 6] rfl rfl rfl⟩

/-- The ordering the listing claim states: no unpinned record precedes a
pinned one, and within a pin group created_at is descending. -/
def listing_order (a b : ClipboardItem) : Prop :=
  (b.is_pinned = true → a.is_pinned = true) ∧
  (a.is_pinned = b.is_pinned → b.created_at ≤ a.created_at)

/-- The SQL ordering implies the stated listing order. -/
theorem sql_le_implies_listing {a b : ClipboardItem} (h : sql_le a b) :
    listing_order a b := by
  unfold sql_le pin_val at h
  unfold listing_order
  cases ha : a.is_pinned <;> cases hb : b.is_pinned <;>
    simp [ha, hb] at h ⊢ <;> omega

/-- C7: for every store state and limit argument, the listing places all
pinned records before all unpinned ones with created_at descending inside
each group (pairwise listing_order); a positive limit bounds the number of
results; and an unspecified or non-positive limit returns all records. -/
theorem list_pinned_first_and_limit (st : DbState) (limit : Option Int) :
    (get_all_items limit st).Pairwise listing_order ∧
    (∀ n, limit = some n → 0 < n →
      (get_all_items limit st).length ≤ n.toNat) ∧
    (limit = none → (get_all_items limit st).Perm st.rows) ∧
    (∀ n, limit = some n → n ≤ 0 →
      (get_all_items limit st).Perm st.rows) := by
  have hsorted : (st.rows.insertionSort sql_le).Pairwise sql_le :=
    List.sorted_insertionSort sql_le st.rows
  have hlist : (st.rows.insertionSort sql_le).Pairwise listing_order :=
    hsorted.imp sql_le_implies_listing
  have hperm : (st.rows.insertionSort sql_le).Perm st.rows :=
    List.perm_insertionSort sql_le st.rows
  refine ⟨?_, ?_, ?_, ?_⟩
  · unfold get_all_items
    match limit with
    | none => exact hlist
    | some n =>
      by_cases hn : 0 < n
      · simpa [hn] using hlist.sublist (List.take_sublist _ _)
      · simpa [hn] using hlist
  · intro n hn hpos
    subst hn
    unfold get_all_items
    simp only [if_pos hpos]
    exact List.length_take_le _ _
  · intro hn
    subst hn
    exact hperm
  · intro n hn hnp
    subst hn
    unfold get_all_items
    simp only [if_neg (by omega : ¬ 0 < n)]
    exact hperm

theorem list_pinned_first_witness :
    (get_all_items (some 3) sample_db).Pairwise listing_order ∧
    (get_all_items (some 3) sample_db).length ≤ 3 ∧
    (get_all_items none sample_db).Perm sample_db.rows ∧
    (get_all_items (some 0) sample_db).Perm sample_db.rows :=
  ⟨(list_pinned_first_and_limit sample_db (some 3)).1,
   (list_pinned_first_and_limit sample_db (some 3)).2.1 3 rfl (by decide),
   (list_pinned_first_and_limit sample_db none).2.2.1 rfl,
   (list_pinned_first_and_limit sample_db (some 0)).2.2.2 0 rfl (by decide)⟩

end EveryPaste
